import Mathlib

/-!
Verification development for a tree-walking Lox interpreter written in Rust
(scanner / parser / resolver / evaluator).  This file shallow-embeds the data
model and the operations of the resolver and the evaluator, following the
source files `src/interpreter/mod.rs`, `src/interpreter/environment.rs`,
`src/interpreter/resolver.rs`, `src/object.rs`, `src/token.rs`,
`src/lox_instance.rs`, `src/lox_function.rs`, `src/lox_class.rs`,
`src/native/clock.rs`, `src/native/assert_eq.rs` and `src/main.rs`.

Modelling conventions:
* `Rc<RefCell<Environment>>` is modelled as an index (`Nat`) into an explicit
  heap (`List Environment`); allocating an `Rc` appends a frame to the heap.
* IEEE-754 doubles are modelled as `Rat`.  No claim below depends on
  overflow, NaN or infinity behaviour; `OrderedFloat` gives numbers decidable
  equality, which `Rat` has as well.
* A Rust `panic!` (and an out-of-bounds index / `Option::unwrap` failure) is
  the distinguished outcome `Outcome.panicked`, which - like a real panic -
  is not caught anywhere and in particular skips the frame-restore of
  `execute_block`.  Fuel exhaustion is the distinguished outcome
  `Outcome.diverged` (standing for non-termination).
* `println!` output and the system clock are irrelevant to the claims;
  `print` discards the value after evaluating it, and the native `clock`
  returns the `time` field carried (unchanged) in the interpreter state.
* Error message strings follow the source but drop quote characters and
  brace-rendered debug payloads.
-/

namespace Lox

/-- Token types, from the variants of `TokenType` the scanner and the
evaluator use (`src/token_type.rs` is referenced by the crate; the variant
set is reconstructed from every use site). -/
inductive TokenType where
  | identifier | number | stringT | eof
  | leftParen | rightParen | leftBrace | rightBrace
  | comma | dot | semicolon | equal
  | bang | bangEqual | equalEqual
  | greater | greaterEqual | less | lessEqual
  | minus | plus | slash | star
  | orK | andK | thisK
  deriving DecidableEq, Repr

/-- `Literal` from `src/object.rs`: `String`, `Null`, `Number(OrderedFloat<f64>)`,
`Boolean`.  Numbers are modelled as `Rat`. -/
inductive Literal where
  | stringL (s : String)
  | null
  | number (n : Rat)
  | boolean (b : Bool)
  deriving DecidableEq, Repr

/-- `Token` from `src/token.rs`: `{ typ, lexeme, literal, line }`.
Its `Eq`/`Hash` are structural over all four fields (there is no nonce
field). -/
structure Token where
  typ : TokenType
  lexeme : String
  literal : Literal
  line : Nat
  deriving DecidableEq, Repr

/-- `Token::new` from `src/token.rs`. -/
def Token.new (typ : TokenType) (lexeme : String) (literal : Literal) (line : Nat) : Token :=
  { typ := typ, lexeme := lexeme, literal := literal, line := line }

mutual
/-- `Expr` from the AST consumed by `src/interpreter/mod.rs` (`expr::*`):
Binary, Logical, Grouping, Literal, Unary, Variable, Assign, Call, Get,
Set, This. -/
inductive Expr where
  | binary (left : Expr) (operator : Token) (right : Expr)
  | logical (left : Expr) (operator : Token) (right : Expr)
  | grouping (expression : Expr)
  | literalE (value : Literal)
  | unary (operator : Token) (right : Expr)
  | variable (name : Token)
  | assign (name : Token) (value : Expr)
  | call (callee : Expr) (paren : Token) (arguments : List Expr)
  | get (object : Expr) (name : Token)
  | set (object : Expr) (name : Token) (value : Expr)
  | thisE (keyword : Token)

/-- `Stmt` from the AST consumed by `src/interpreter/mod.rs` (`stmt::*`). -/
inductive Stmt where
  | printS (expression : Expr)
  | blockS (statements : List Stmt)
  | exprS (expression : Expr)
  | varS (name : Token) (initializer : Option Expr)
  | ifS (condition : Expr) (thenBranch : Stmt) (elseBranch : Option Stmt)
  | whileS (condition : Expr) (body : Stmt)
  | functionS (decl : FunctionDecl)
  | returnS (keyword : Token) (value : Option Expr)
  | classS (name : Token) (methods : List FunctionDecl)

/-- `stmt::Function` - a function declaration: name, parameters, body. -/
inductive FunctionDecl where
  | mk (name : Token) (params : List Token) (body : List Stmt)
end

def FunctionDecl.name : FunctionDecl → Token
  | .mk n _ _ => n

def FunctionDecl.params : FunctionDecl → List Token
  | .mk _ p _ => p

def FunctionDecl.body : FunctionDecl → List Stmt
  | .mk _ _ b => b

/-- Association-list lookup, modelling `HashMap::get`. -/
def alookup {κ α : Type} [DecidableEq κ] : List (κ × α) → κ → Option α
  | [], _ => none
  | (k, v) :: rest, key => if k = key then some v else alookup rest key

/-- Association-list insert-or-replace, modelling `HashMap::insert`. -/
def ainsert {κ α : Type} [DecidableEq κ] : List (κ × α) → κ → α → List (κ × α)
  | [], key, v => [(key, v)]
  | (k, v') :: rest, key, v =>
      if k = key then (key, v) :: rest else (k, v') :: ainsert rest key v

/-- The method table of a `LoxClass` (`src/lox_class.rs`): each method name
maps to a `LoxFunction`, i.e. a declaration paired with the heap index of its
closure frame. -/
structure LoxClassData where
  name : String
  methods : List (String × FunctionDecl × Nat)

/-- The callable implementations behind `Rc<dyn LoxCallable>`: the two
natives (`src/native/clock.rs`, `src/native/assert_eq.rs`), user functions
(`src/lox_function.rs`: declaration + closure frame) and classes
(`src/lox_class.rs`). -/
inductive CallableData where
  | clock
  | assertEq
  | func (declaration : FunctionDecl) (closure : Nat)
  | cls (c : LoxClassData)

/-- `Object` from `src/object.rs`: `Callable`, `Instance`, `Literal`.
A `LoxInstance` (`src/lox_instance.rs`) is a `#[derive(Clone)]` value holding
its class and a field map by value - it is not a shared handle. -/
inductive Object where
  | callable (c : CallableData)
  | instanceO (cls : LoxClassData) (fields : List (String × Object))
  | literalO (l : Literal)

/-- `LoxError` from `src/main.rs` (the variants the interpreter produces),
plus the two abnormal outcomes are kept in `Outcome` below. -/
inductive LoxError where
  | runtime (found : String) (expected : String) (line : Option Nat)
  | internal (message : String)
  | returnSignal (value : Object)
  | resolver (message : String)

/-- Result channel of every modelled operation.  `ok`/`err` are Rust
`Ok`/`Err`; `panicked` is a Rust `panic!` (uncatchable); `diverged` is fuel
exhaustion, standing for non-termination. -/
inductive Outcome (α : Type) where
  | ok (val : α)
  | err (e : LoxError)
  | panicked (msg : String)
  | diverged

/-- `LoxError::add_line` from `src/main.rs`. -/
def LoxError.addLine (e : LoxError) (line : Nat) : LoxError :=
  match e with
  | .runtime found expected _ => .runtime found expected (some line)
  | other => other

/-- `Literal::is_truthy` from `src/object.rs`. -/
def Literal.isTruthy : Literal → Bool
  | .null => false
  | .boolean b => b
  | _ => true

/-- `Display` for `Literal` (`src/object.rs`), used in error messages.
Integers print without a fractional part. -/
def Literal.display : Literal → String
  | .stringL s => s
  | .null => "nil"
  | .number n => if n.den = 1 then toString n.num else toString n
  | .boolean b => toString b

/-- `Literal::into_number` from `src/object.rs`. -/
def Literal.intoNumber : Literal → Except LoxError Rat
  | .number n => .ok n
  | l => .error (.runtime l.display "f64" none)

/-- `PartialOrd for Literal` from `src/object.rs`: compare `as_number` of
both sides; `None` unless both are numbers.  (`f64::partial_cmp` on
non-NaN values is the usual order comparison, spelled out here.) -/
def Literal.partialCmp : Literal → Literal → Option Ordering
  | .number a, .number b =>
      some (if a < b then .lt else if a = b then .eq else .gt)
  | _, _ => none

/-- `Add for Literal` (`src/object.rs`): number + number, string + string,
otherwise a runtime error. -/
def Literal.add : Literal → Literal → Except LoxError Literal
  | .number a, .number b => .ok (.number (a + b))
  | .stringL a, .stringL b => .ok (.stringL (a ++ b))
  | _, _ => .error (.runtime "mismatched operands" "string + string, or number + number" none)

/-- `Sub for Literal` (`src/object.rs`). -/
def Literal.sub : Literal → Literal → Except LoxError Literal
  | .number a, .number b => .ok (.number (a - b))
  | _, _ => .error (.runtime "non-number operand(s)" "number + number" none)

/-- `Neg for Literal` (`src/object.rs`). -/
def Literal.neg : Literal → Except LoxError Literal
  | .number n => .ok (.number (-n))
  | l => .error (.runtime l.display "a number to negate" none)

/-- `Div for Literal` (`src/object.rs`): `into_number` both sides then
divide.  (Division by zero is total on `Rat`; IEEE infinities are not
modelled and no claim touches them.) -/
def Literal.div (a b : Literal) : Except LoxError Literal := do
  let x ← a.intoNumber
  let y ← b.intoNumber
  .ok (.number (x / y))

/-- `Mul for Literal` (`src/object.rs`). -/
def Literal.mul (a b : Literal) : Except LoxError Literal := do
  let x ← a.intoNumber
  let y ← b.intoNumber
  .ok (.number (x * y))

/-- `LoxCallable::name` per implementation (`clock.rs` returns
"system_clock", `assert_eq.rs` returns "assert"). -/
def CallableData.calName : CallableData → String
  | .clock => "system_clock"
  | .assertEq => "assert"
  | .func d _ => d.name.lexeme
  | .cls c => c.name

/-- `LoxCallable::arity` per implementation.  `LoxFunction::arity` is
`params.len() as u8`, hence the `% 256`. -/
def CallableData.calArity : CallableData → Nat
  | .clock => 0
  | .assertEq => 2
  | .func d _ => d.params.length % 256
  | .cls _ => 0

/-- `PartialEq for Object` (`src/object.rs`): callables compare by name and
arity; literals structurally; every other pairing (instances included) is
`false`. -/
def Object.rustEq : Object → Object → Bool
  | .callable c1, .callable c2 =>
      c1.calName = c2.calName && c1.calArity = c2.calArity
  | .literalO l1, .literalO l2 => l1 = l2
  | _, _ => false

/-- `Debug for Object` (`src/object.rs`), simplified to the pieces the
error messages need (instance field maps are abbreviated). -/
def Object.debugStr : Object → String
  | .callable c =>
      match c with
      | .func d _ => "<fn " ++ d.name.lexeme ++ ">"
      | .cls cd => cd.name
      | _ => "<native function>"
  | .instanceO c _ => c.name ++ " instance"
  | .literalO l => l.display

/-- `PartialOrd for Object` (`src/object.rs`) combined with how
`eval_binary` uses it: Rust `left > right` is
`partial_cmp == Some(Greater)`, which is `false` whenever `partial_cmp`
is `None` (any non number-number pairing). -/
def Object.partialCmp : Object → Object → Option Ordering
  | .literalO a, .literalO b => a.partialCmp b
  | _, _ => none

def Object.gtB (a b : Object) : Bool := a.partialCmp b = some .gt
def Object.geB (a b : Object) : Bool :=
  a.partialCmp b = some .gt || a.partialCmp b = some .eq
def Object.ltB (a b : Object) : Bool := a.partialCmp b = some .lt
def Object.leB (a b : Object) : Bool :=
  a.partialCmp b = some .lt || a.partialCmp b = some .eq

/-- Lift a binary `Literal` operation to `Object` (`src/object.rs`:
`Add/Sub/Div/Mul for Object` all share this shape). -/
def Object.liftBin (f : Literal → Literal → Except LoxError Literal)
    (a b : Object) : Except LoxError Object :=
  match a, b with
  | .literalO x, .literalO y =>
      match f x y with
      | .ok l => .ok (.literalO l)
      | .error e => .error e
  | _, _ =>
      .error (.runtime "non-literal operands" "String + String, or Number + Number" none)

/-- `Environment` from `src/interpreter/environment.rs`:
`{ values: HashMap<String, Object>, parent: Option<RcCell<Environment>> }`.
The `RcCell` parent pointer is a heap index. -/
structure Environment where
  values : List (String × Object)
  parent : Option Nat

/-- `Environment::new`: no parent. -/
def Environment.new : Environment := { values := [], parent := none }

/-- `Environment::with_parent`. -/
def Environment.withParent (enclosing : Nat) : Environment :=
  { values := [], parent := some enclosing }

/-- Dereference a heap index (an `Rc<RefCell<Environment>>`). -/
def heapGet (heap : List Environment) (i : Nat) : Environment :=
  heap.getD i Environment.new

/-- Write back through a heap index. -/
def heapSet (heap : List Environment) (i : Nat) (f : Environment) : List Environment :=
  heap.set i f

/-- `Environment::define`: unconditional insert into the frame at `idx`. -/
def Environment.define (heap : List Environment) (idx : Nat) (name : String)
    (value : Object) : List Environment :=
  let fr := heapGet heap idx
  heapSet heap idx { fr with values := ainsert fr.values name value }

/-- `Environment::assign`: assign in the first frame of the parent chain
that already contains the name; runtime error at the chain's root
otherwise.  `fuel` bounds the chain walk; every chain the interpreter
builds is acyclic (a frame's parent is always an older index), so
`heap.length + 1` fuel always suffices. -/
def Environment.assign : Nat → List Environment → Nat → Token → Object →
    Outcome Unit × List Environment
  | 0, heap, _, _, _ => (.diverged, heap)
  | fuel + 1, heap, idx, name, value =>
    let fr := heapGet heap idx
    match alookup fr.values name.lexeme with
    | some _ =>
        (.ok (), heapSet heap idx { fr with values := ainsert fr.values name.lexeme value })
    | none =>
        match fr.parent with
        | some p => Environment.assign fuel heap p name value
        | none =>
            (.err (.runtime "undefined"
              ("Variable " ++ name.lexeme ++ " to be defined.") (some name.line)), heap)

/-- `Environment::get`: chained lookup through the parent chain; runtime
error at the root. -/
def Environment.get : Nat → List Environment → Nat → Token → Outcome Object
  | 0, _, _, _ => .diverged
  | fuel + 1, heap, idx, name =>
    let fr := heapGet heap idx
    match alookup fr.values name.lexeme with
    | some v => .ok v
    | none =>
        match fr.parent with
        | some p => Environment.get fuel heap p name
        | none => .err (.runtime name.lexeme "Defined variable name" (some name.line))

/-- `ancestor` from `src/interpreter/environment.rs`: ascend `distance`
parents, `unwrap`-ping each hop (a missing parent is a panic). -/
def ancestor (heap : List Environment) : Nat → Nat → Outcome Nat
  | idx, 0 => .ok idx
  | idx, d + 1 =>
    match (heapGet heap idx).parent with
    | some p => ancestor heap p d
    | none => .panicked "called Option unwrap on a None value"

/-- `Environment::get_at`: distance 0 reads the frame itself; otherwise
`ancestor(parent, distance - 1)`.  A missing name or missing first parent
is an Internal error; a missing parent deeper in `ancestor` is a panic. -/
def Environment.getAt (heap : List Environment) (idx : Nat) (distance : Nat)
    (key : String) : Outcome Object :=
  if distance = 0 then
    match alookup (heapGet heap idx).values key with
    | some v => .ok v
    | none => .err (.internal ("Expected variable " ++ key ++ " at distance"))
  else
    match (heapGet heap idx).parent with
    | none => .err (.internal "Expected a parent")
    | some p =>
        match ancestor heap p (distance - 1) with
        | .ok a =>
            match alookup (heapGet heap a).values key with
            | some v => .ok v
            | none => .err (.internal ("Expected variable " ++ key ++ " at distance"))
        | .err e => .err e
        | .panicked m => .panicked m
        | .diverged => .diverged

/-- `Environment::assign_at`: distance 0 inserts into the frame itself;
otherwise `ancestor(self.parent.unwrap(), distance - 1)` (panics when a
parent is missing) and insert there. -/
def Environment.assignAt (heap : List Environment) (idx : Nat) (distance : Nat)
    (key : String) (value : Object) : Outcome Unit × List Environment :=
  if distance = 0 then
    let fr := heapGet heap idx
    (.ok (), heapSet heap idx { fr with values := ainsert fr.values key value })
  else
    match (heapGet heap idx).parent with
    | none => (.panicked "called Option unwrap on a None value", heap)
    | some p =>
        match ancestor heap p (distance - 1) with
        | .ok a =>
            let fr := heapGet heap a
            (.ok (), heapSet heap a { fr with values := ainsert fr.values key value })
        | .err e => (.err e, heap)
        | .panicked m => (.panicked m, heap)
        | .diverged => (.diverged, heap)

/-- `Interpreter` from `src/interpreter/mod.rs`:
`{ environment, globals: RcCell<Environment>, locals: HashMap<Token, u8> }`,
plus the explicit heap the `Rc` cells live in and the (otherwise
irrelevant) time returned by the native `clock`. -/
structure Interpreter where
  heap : List Environment
  environment : Nat
  globals : Nat
  locals : List (Token × Nat)
  time : Rat

/-- `Interpreter::new`: a globals frame holding the two natives, with the
current environment aliasing the globals frame. -/
def Interpreter.new : Interpreter :=
  { heap := [{ values := [("clock", .callable .clock), ("assert_eq", .callable .assertEq)],
               parent := none }],
    environment := 0, globals := 0, locals := [], time := 0 }

/-- `Interpreter::lookup_variable`: a resolved token reads via `get_at` at
its recorded depth from the *current* frame; an unresolved token falls back
to `self.environment.borrow().get(..)` - the chained lookup from the
current frame (not the globals frame). -/
def Interpreter.lookupVariable (st : Interpreter) (name : Token) : Outcome Object :=
  match alookup st.locals name with
  | some distance => Environment.getAt st.heap st.environment distance name.lexeme
  | none => Environment.get (st.heap.length + 1) st.heap st.environment name

/-- `Interpreter::resolve`: panics when the token is already a key of the
resolution map, otherwise records the depth. -/
def Interpreter.resolveTok (st : Interpreter) (token : Token) (i : Nat) :
    Outcome Unit × Interpreter :=
  if (alookup st.locals token).isSome then
    (.panicked "Tried to insert local over existing key", st)
  else
    (.ok (), { st with locals := ainsert st.locals token i })

/-- `impl LoxCallable for Object::arity`: panics unless the object is a
callable. -/
def Object.arity : Object → Outcome Nat
  | .callable c => .ok c.calArity
  | o => .panicked (o.debugStr ++ " is not a LoxCallable")

/-- `Display for Object` (`src/object.rs`). -/
def Object.displayStr : Object → String
  | .callable c => "callable <" ++ c.calName ++ ">"
  | .instanceO c _ => c.name ++ " instance"
  | .literalO l => l.display

/-- Map a `map_err(|e| e.add_line(line))` over an object result. -/
def liftErr : Except LoxError Object → Nat → Outcome Object
  | .ok v, _ => .ok v
  | .error e, line => .err (e.addLine line)

/-- The operator dispatch of `Interpreter::eval_binary`
(`src/interpreter/mod.rs`), applied after both operands are evaluated.
The comparison arms use Rust `PartialOrd`-derived `>`/`>=`/`<`/`<=`, which
are `false` whenever `partial_cmp` is `None`; the arithmetic arms attach
the operator's line to errors; an unknown operator yields `Null`. -/
def binaryOp (operator : Token) (l r : Object) : Outcome Object :=
  match operator.typ with
  | .greater => .ok (.literalO (.boolean (l.gtB r)))
  | .greaterEqual => .ok (.literalO (.boolean (l.geB r)))
  | .less => .ok (.literalO (.boolean (l.ltB r)))
  | .lessEqual => .ok (.literalO (.boolean (l.leB r)))
  | .minus => liftErr (Object.liftBin Literal.sub l r) operator.line
  | .plus => liftErr (Object.liftBin Literal.add l r) operator.line
  | .slash => liftErr (Object.liftBin Literal.div l r) operator.line
  | .star => liftErr (Object.liftBin Literal.mul l r) operator.line
  | .equalEqual => .ok (.literalO (.boolean (l.rustEq r)))
  | .bangEqual => .ok (.literalO (.boolean (! l.rustEq r)))
  | _ => .ok (.literalO .null)

/-- `LoxAssertEq::call` (`src/native/assert_eq.rs`). -/
def assertEqCall (args : List Object) : Outcome Object :=
  if args.length ≠ 2 then
    .err (.runtime (toString args.length ++ " args") "2 arguments" none)
  else
    match args with
    | [a, b] =>
        if a.rustEq b then .ok (.literalO .null)
        else .err (.runtime (a.displayStr ++ " != " ++ b.displayStr)
                            (a.displayStr ++ " == " ++ b.displayStr) none)
    | _ => .panicked "already checked"

/-- `LoxInstance::get` (`src/lox_instance.rs`): the field if present, else
the class's method via `find_method` - returned AS STORED, without any
`bind` (the source never calls `LoxFunction::bind`) - else a runtime
error. -/
def LoxInstance.get (cls : LoxClassData) (fields : List (String × Object))
    (name : Token) : Outcome Object :=
  match alookup fields name.lexeme with
  | some v => .ok v
  | none =>
      match alookup cls.methods name.lexeme with
      | some (decl, closure) => .ok (.callable (.func decl closure))
      | none =>
          .err (.runtime "no such method or field"
            ("method or field named " ++ name.lexeme) (some name.line))

/-- `LoxFunction::bind` (`src/lox_function.rs`): a fresh frame whose parent
is the original closure, defining `this` to the instance.  (Defined for
reference: the source declares it but never calls it.) -/
def LoxFunction.bind (heap : List Environment) (decl : FunctionDecl) (closure : Nat)
    (inst : Object) : Object × List Environment :=
  let env : Environment := { values := ainsert [] "this" inst, parent := some closure }
  (.callable (.func decl heap.length), heap ++ [env])

/-- The parameter-binding loop of `LoxFunction::call`: iterate the
*arguments*, indexing `declaration.params[i]` (an out-of-range index is a
panic). -/
def defineParams : List Token → List Object → Environment → Outcome Environment
  | _, [], env => .ok env
  | [], _ :: _, _ => .panicked "index out of bounds"
  | p :: ps, a :: rest, env =>
      defineParams ps rest { env with values := ainsert env.values p.lexeme a }

/-- The syntactic scrutinee of `eval_set`'s work-around: the token of a
`Variable` or `This` object expression, `none` for every other shape. -/
def setTargetToken : Expr → Option Token
  | .variable t => some t
  | .thisE t => some t
  | _ => none

/-- Build the method table of `execute_class_stmt`: each method closes over
the current frame. -/
def buildMethods (methods : List FunctionDecl) (env : Nat) :
    List (String × FunctionDecl × Nat) :=
  methods.foldl (fun acc m => ainsert acc m.name.lexeme (m, env)) []

/-- Repackage an environment-assignment result, yielding `value` on
success (`eval_assign` / `eval_set` return the assigned value). -/
def assignResult (r : Outcome Unit × List Environment) (st : Interpreter)
    (value : Object) : Outcome Object × Interpreter :=
  match r with
  | (.ok (), h) => (.ok value, { st with heap := h })
  | (.err e, h) => (.err e, { st with heap := h })
  | (.panicked m, h) => (.panicked m, { st with heap := h })
  | (.diverged, h) => (.diverged, { st with heap := h })

mutual

/-- `Interpreter::execute` (`src/interpreter/mod.rs`), one statement. -/
def execute : Nat → Interpreter → Stmt → Outcome Unit × Interpreter
  | 0, st, _ => (.diverged, st)
  | fuel + 1, st, stmt =>
    match stmt with
    | .printS e =>
        match evaluate fuel st e with
        | (.ok _, st1) => (.ok (), st1)
        | (.err e', st1) => (.err e', st1)
        | (.panicked m, st1) => (.panicked m, st1)
        | (.diverged, st1) => (.diverged, st1)
    | .blockS stmts => executeBlock fuel st stmts Environment.new
    | .exprS e =>
        match evaluate fuel st e with
        | (.ok _, st1) => (.ok (), st1)
        | (.err e', st1) => (.err e', st1)
        | (.panicked m, st1) => (.panicked m, st1)
        | (.diverged, st1) => (.diverged, st1)
    | .varS name init =>
        match (match init with
               | some e => evaluate fuel st e
               | none => (.ok (.literalO .null), st)) with
        | (.ok v, st1) =>
            (.ok (), { st1 with heap := Environment.define st1.heap st1.environment name.lexeme v })
        | (.err e', st1) => (.err e', st1)
        | (.panicked m, st1) => (.panicked m, st1)
        | (.diverged, st1) => (.diverged, st1)
    | .ifS cond thenB elseB =>
        match evaluateLiteral fuel st cond with
        | (.ok res, st1) =>
            if res.isTruthy then execute fuel st1 thenB
            else
              match elseB with
              | some eb => execute fuel st1 eb
              | none => (.ok (), st1)
        | (.err e', st1) => (.err e', st1)
        | (.panicked m, st1) => (.panicked m, st1)
        | (.diverged, st1) => (.diverged, st1)
    | .whileS cond body =>
        match evaluateLiteral fuel st cond with
        | (.ok res, st1) => whileLoop fuel st1 res cond body
        | (.err e', st1) => (.err e', st1)
        | (.panicked m, st1) => (.panicked m, st1)
        | (.diverged, st1) => (.diverged, st1)
    | .functionS decl =>
        let h := Environment.define st.heap st.environment decl.name.lexeme
                   (.callable (.func decl st.environment))
        (.ok (), { st with heap := h })
    | .returnS _ value =>
        match (match value with
               | some e => evaluate fuel st e
               | none => (.ok (.literalO .null), st)) with
        | (.ok v, st1) => (.err (.returnSignal v), st1)
        | (.err e', st1) => (.err e', st1)
        | (.panicked m, st1) => (.panicked m, st1)
        | (.diverged, st1) => (.diverged, st1)
    | .classS name methods =>
        let st1 : Interpreter :=
          { st with heap := Environment.define st.heap st.environment name.lexeme (.literalO .null) }
        let ms := buildMethods methods st1.environment
        match Environment.assign (st1.heap.length + 1) st1.heap st1.environment name
                (.callable (.cls { name := name.lexeme, methods := ms })) with
        | (.ok (), h) => (.ok (), { st1 with heap := h })
        | (.err e', h) => (.err e', { st1 with heap := h })
        | (.panicked m, h) => (.panicked m, { st1 with heap := h })
        | (.diverged, h) => (.diverged, { st1 with heap := h })

/-- The `while` loop body of `Interpreter::execute_while_stmt`: execute the
body, re-evaluate the condition, repeat while truthy. -/
def whileLoop : Nat → Interpreter → Literal → Expr → Stmt → Outcome Unit × Interpreter
  | 0, st, _, _, _ => (.diverged, st)
  | fuel + 1, st, res, cond, body =>
    if res.isTruthy then
      match execute fuel st body with
      | (.ok (), st1) =>
          match evaluateLiteral fuel st1 cond with
          | (.ok res', st2) => whileLoop fuel st2 res' cond body
          | (.err e', st2) => (.err e', st2)
          | (.panicked m, st2) => (.panicked m, st2)
          | (.diverged, st2) => (.diverged, st2)
      | (.err e', st1) => (.err e', st1)
      | (.panicked m, st1) => (.panicked m, st1)
      | (.diverged, st1) => (.diverged, st1)
    else (.ok (), st)

/-- The statement loop shared by `Interpreter::interpret` and the inner
closure of `execute_block`: run statements in order, stopping at the first
non-`Ok` outcome. -/
def executeAll : Nat → Interpreter → List Stmt → Outcome Unit × Interpreter
  | 0, st, _ => (.diverged, st)
  | fuel + 1, st, stmts =>
    match stmts with
    | [] => (.ok (), st)
    | s :: rest =>
        match execute fuel st s with
        | (.ok (), st1) => executeAll fuel st1 rest
        | (.err e', st1) => (.err e', st1)
        | (.panicked m, st1) => (.panicked m, st1)
        | (.diverged, st1) => (.diverged, st1)

/-- `Interpreter::execute_block`: allocate the given frame (`Rc::new`),
swap it in as the current environment (`mem::replace`), run the
statements, and restore the saved environment afterwards - on both the
`Ok` and the `Err` path.  A panic (which in Rust aborts) skips the
restore, as does divergence. -/
def executeBlock : Nat → Interpreter → List Stmt → Environment → Outcome Unit × Interpreter
  | 0, st, _, _ => (.diverged, st)
  | fuel + 1, st, stmts, environment =>
    let newIdx := st.heap.length
    let originalEnv := st.environment
    let st1 : Interpreter := { st with heap := st.heap ++ [environment], environment := newIdx }
    match executeAll fuel st1 stmts with
    | (.ok (), st2) => (.ok (), { st2 with environment := originalEnv })
    | (.err e', st2) => (.err e', { st2 with environment := originalEnv })
    | (.panicked m, st2) => (.panicked m, st2)
    | (.diverged, st2) => (.diverged, st2)

/-- `Interpreter::evaluate` (`src/interpreter/mod.rs`), one expression. -/
def evaluate : Nat → Interpreter → Expr → Outcome Object × Interpreter
  | 0, st, _ => (.diverged, st)
  | fuel + 1, st, e =>
    match e with
    | .binary l op r =>
        match evaluate fuel st l with
        | (.ok lv, st1) =>
            match evaluate fuel st1 r with
            | (.ok rv, st2) => (binaryOp op lv rv, st2)
            | (.err e', st2) => (.err e', st2)
            | (.panicked m, st2) => (.panicked m, st2)
            | (.diverged, st2) => (.diverged, st2)
        | (.err e', st1) => (.err e', st1)
        | (.panicked m, st1) => (.panicked m, st1)
        | (.diverged, st1) => (.diverged, st1)
    | .logical l op r =>
        match evaluateLiteral fuel st l with
        | (.ok lv, st1) =>
            if (op.typ = TokenType.orK && lv.isTruthy)
                || (op.typ = TokenType.andK && !lv.isTruthy) then
              (.ok (.literalO lv), st1)
            else
              evaluate fuel st1 r
        | (.err e', st1) => (.err e', st1)
        | (.panicked m, st1) => (.panicked m, st1)
        | (.diverged, st1) => (.diverged, st1)
    | .grouping inner => evaluate fuel st inner
    | .literalE v => (.ok (.literalO v), st)
    | .unary op r =>
        match evaluateLiteral fuel st r with
        | (.ok lv, st1) =>
            match op.typ with
            | .minus =>
                match lv.intoNumber with
                | .ok n => (.ok (.literalO (.number (-n))), st1)
                | .error e' => (.err (e'.addLine op.line), st1)
            | .bang => (.ok (.literalO (.boolean (!lv.isTruthy))), st1)
            | _ => (.err (.runtime op.lexeme "bang or minus unary operator" (some op.line)), st1)
        | (.err e', st1) => (.err e', st1)
        | (.panicked m, st1) => (.panicked m, st1)
        | (.diverged, st1) => (.diverged, st1)
    | .variable name => (st.lookupVariable name, st)
    | .assign name value =>
        match evaluate fuel st value with
        | (.ok v, st1) =>
            match alookup st1.locals name with
            | some distance =>
                assignResult (Environment.assignAt st1.heap st1.environment distance name.lexeme v) st1 v
            | none =>
                assignResult (Environment.assign (st1.heap.length + 1) st1.heap st1.environment name v) st1 v
        | (.err e', st1) => (.err e', st1)
        | (.panicked m, st1) => (.panicked m, st1)
        | (.diverged, st1) => (.diverged, st1)
    | .call callee paren args =>
        match evaluate fuel st callee with
        | (.ok f, st1) =>
            match evalArgs fuel st1 args with
            | (.ok argv, st2) =>
                match f.arity with
                | .ok ar =>
                    if argv.length % 256 ≠ ar then
                      (.err (.runtime (toString argv.length ++ " arguments")
                        (toString ar ++ " arguments") (some paren.line)), st2)
                    else
                      match callCallable fuel st2 f argv with
                      | (.ok v, st3) => (.ok v, st3)
                      | (.err e', st3) => (.err (e'.addLine paren.line), st3)
                      | (.panicked m, st3) => (.panicked m, st3)
                      | (.diverged, st3) => (.diverged, st3)
                | .err e' => (.err e', st2)
                | .panicked m => (.panicked m, st2)
                | .diverged => (.diverged, st2)
            | (.err e', st2) => (.err e', st2)
            | (.panicked m, st2) => (.panicked m, st2)
            | (.diverged, st2) => (.diverged, st2)
        | (.err e', st1) => (.err e', st1)
        | (.panicked m, st1) => (.panicked m, st1)
        | (.diverged, st1) => (.diverged, st1)
    | .get obj name =>
        match evaluate fuel st obj with
        | (.ok (.instanceO cls fields), st1) => (LoxInstance.get cls fields name, st1)
        | (.ok _, st1) => (.err (.internal "Only instances have properties."), st1)
        | (.err e', st1) => (.err e', st1)
        | (.panicked m, st1) => (.panicked m, st1)
        | (.diverged, st1) => (.diverged, st1)
    | .set obj name value =>
        match evaluate fuel st obj with
        | (.ok (.instanceO cls fields), st1) =>
            match evaluate fuel st1 value with
            | (.ok v, st2) =>
                let fields' := ainsert fields name.lexeme v
                match setTargetToken obj with
                | some t =>
                    assignResult (Environment.assign (st2.heap.length + 1) st2.heap
                      st2.environment t (.instanceO cls fields')) st2 v
                | none => (.err (.resolver "Wrong kind of expr"), st2)
            | (.err e', st2) => (.err e', st2)
            | (.panicked m, st2) => (.panicked m, st2)
            | (.diverged, st2) => (.diverged, st2)
        | (.ok o, st1) => (.err (.runtime o.debugStr "A LoxInstance" (some name.line)), st1)
        | (.err e', st1) => (.err e', st1)
        | (.panicked m, st1) => (.panicked m, st1)
        | (.diverged, st1) => (.diverged, st1)
    | .thisE keyword => (st.lookupVariable keyword, st)

/-- The `for argument in expr.arguments` loop of `eval_call`: evaluate the
arguments left to right. -/
def evalArgs : Nat → Interpreter → List Expr → Outcome (List Object) × Interpreter
  | 0, st, _ => (.diverged, st)
  | _ + 1, st, [] => (.ok [], st)
  | fuel + 1, st, a :: rest =>
      match evaluate fuel st a with
      | (.ok v, st1) =>
          match evalArgs fuel st1 rest with
          | (.ok vs, st2) => (.ok (v :: vs), st2)
          | (.err e', st2) => (.err e', st2)
          | (.panicked m, st2) => (.panicked m, st2)
          | (.diverged, st2) => (.diverged, st2)
      | (.err e', st1) => (.err e', st1)
      | (.panicked m, st1) => (.panicked m, st1)
      | (.diverged, st1) => (.diverged, st1)

/-- `impl LoxCallable for Object::call`, dispatching to `LoxClock::call`,
`LoxAssertEq::call`, `LoxFunction::call` or `LoxClass::call`; panics on a
non-callable. -/
def callCallable : Nat → Interpreter → Object → List Object → Outcome Object × Interpreter
  | 0, st, _, _ => (.diverged, st)
  | fuel + 1, st, f, args =>
    match f with
    | .callable .clock => (.ok (.literalO (.number st.time)), st)
    | .callable .assertEq => (assertEqCall args, st)
    | .callable (.func decl closure) => loxFunctionCall fuel st decl closure args
    | .callable (.cls c) => (.ok (.instanceO c []), st)
    | o => (.panicked (o.debugStr ++ " is not a LoxCallable"), st)

/-- `LoxFunction::call` (`src/lox_function.rs`): a fresh frame whose parent
is the closure, parameters bound to arguments, the body run through
`execute_block`; a `Return` error is converted to the returned value, a
body that falls through yields `Null`. -/
def loxFunctionCall : Nat → Interpreter → FunctionDecl → Nat → List Object →
    Outcome Object × Interpreter
  | 0, st, _, _, _ => (.diverged, st)
  | fuel + 1, st, decl, closure, args =>
    match defineParams decl.params args (Environment.withParent closure) with
    | .ok env =>
        match executeBlock fuel st decl.body env with
        | (.ok (), st1) => (.ok (.literalO .null), st1)
        | (.err (.returnSignal v), st1) => (.ok v, st1)
        | (.err e', st1) => (.err e', st1)
        | (.panicked m, st1) => (.panicked m, st1)
        | (.diverged, st1) => (.diverged, st1)
    | .panicked m => (.panicked m, st)
    | .err e' => (.err e', st)
    | .diverged => (.diverged, st)

/-- `Interpreter::evaluate_literal`: evaluate, then require a `Literal`
(an Internal error otherwise). -/
def evaluateLiteral : Nat → Interpreter → Expr → Outcome Literal × Interpreter
  | 0, st, _ => (.diverged, st)
  | fuel + 1, st, e =>
    match evaluate fuel st e with
    | (.ok (.literalO l), st1) => (.ok l, st1)
    | (.ok o, st1) => (.err (.internal ("Expected a literal, found " ++ o.debugStr)), st1)
    | (.err e', st1) => (.err e', st1)
    | (.panicked m, st1) => (.panicked m, st1)
    | (.diverged, st1) => (.diverged, st1)

end

/-- `Interpreter::interpret`: execute the statements in order, stopping at
the first error. -/
def interpret (fuel : Nat) (st : Interpreter) (stmts : List Stmt) :
    Outcome Unit × Interpreter :=
  executeAll fuel st stmts

/-- `FunctionType` from `src/interpreter/resolver.rs`. -/
inductive FunctionType where
  | none
  | function
  | method

/-- `Resolver` from `src/interpreter/resolver.rs`: a stack of scopes (the
list head is the innermost scope, i.e. the top of the Rust `Vec`), the
enclosing-function kind, and the borrowed interpreter whose `locals` map it
fills. -/
structure Resolver where
  scopes : List (List (String × Bool))
  currFn : FunctionType
  interp : Interpreter

/-- `Resolver::new`. -/
def Resolver.new (interp : Interpreter) : Resolver :=
  { scopes := [], currFn := .none, interp := interp }

/-- `Resolver::begin_scope`. -/
def Resolver.beginScope (r : Resolver) : Resolver :=
  { r with scopes := [] :: r.scopes }

/-- `Resolver::end_scope`: popping an empty stack is a `whatever!` error. -/
def Resolver.endScope (r : Resolver) : Outcome Unit × Resolver :=
  match r.scopes with
  | [] => (.err (.resolver "Ended a scope when there was no stack"), r)
  | _ :: rest => (.ok (), { r with scopes := rest })

/-- `Resolver::declare`: no-op without scopes; duplicate name in the
innermost scope is an error; otherwise mark the name `false` (declared,
not yet defined). -/
def Resolver.declare (r : Resolver) (name : String) : Outcome Unit × Resolver :=
  match r.scopes with
  | [] => (.ok (), r)
  | top :: rest =>
      if (alookup top name).isSome then
        (.err (.resolver (name ++ " is already defined in this scope")), r)
      else
        (.ok (), { r with scopes := ainsert top name false :: rest })

/-- `Resolver::define`: no-op without scopes; otherwise mark the name
`true` in the innermost scope. -/
def Resolver.define (r : Resolver) (name : String) : Outcome Unit × Resolver :=
  match r.scopes with
  | [] => (.ok (), r)
  | top :: rest => (.ok (), { r with scopes := ainsert top name true :: rest })

/-- Scan the scope stack from the innermost scope outwards; the returned
depth is `scopes.len() - 1 - i` in the source's `Vec` indexing, i.e. the
position from the top of the stack. -/
def findScopeDepth : List (List (String × Bool)) → String → Option Nat
  | [], _ => none
  | s :: rest, n =>
      if (alookup s n).isSome then some 0
      else (findScopeDepth rest n).map (fun d => d + 1)

/-- `Resolver::resolve_local`: record the depth of the innermost scope
containing the name via `Interpreter::resolve` (whose duplicate-key panic
propagates); depths beyond `u8` are an error; an unfound name is left
unresolved. -/
def Resolver.resolveLocal (r : Resolver) (token : Token) : Outcome Unit × Resolver :=
  match findScopeDepth r.scopes token.lexeme with
  | some depth =>
      if depth > 255 then (.err (.resolver "Depth larger than u8"), r)
      else
        match r.interp.resolveTok token depth with
        | (.ok (), st1) => (.ok (), { r with interp := st1 })
        | (.err e, st1) => (.err e, { r with interp := st1 })
        | (.panicked m, st1) => (.panicked m, { r with interp := st1 })
        | (.diverged, st1) => (.diverged, { r with interp := st1 })
  | none => (.ok (), r)

/-- The `declare`/`define` loop over a function's parameters in
`Resolver::resolve_func`; a `declare` error propagates. -/
def resolveParams : Resolver → List Token → Outcome Unit × Resolver
  | r, [] => (.ok (), r)
  | r, p :: rest =>
      match r.declare p.lexeme with
      | (.ok (), r1) =>
          match r1.define p.lexeme with
          | (.ok (), r2) => resolveParams r2 rest
          | other => other
      | other => other

mutual

/-- `Resolver::resolve_expr` (`src/interpreter/resolver.rs`).  The source's
match has no `Expr::This` arm (the resolver snapshot predates `This`);
that missing arm is modelled as a panic and is never exercised below. -/
def resolveExpr : Nat → Resolver → Expr → Outcome Unit × Resolver
  | 0, r, _ => (.diverged, r)
  | fuel + 1, r, e =>
    match e with
    | .variable name =>
        match r.scopes with
        | top :: _ =>
            if alookup top name.lexeme = some false then
              (.err (.resolver "Cannot read a local variable in its own initializer."), r)
            else Resolver.resolveLocal r name
        | [] => Resolver.resolveLocal r name
    | .assign name value =>
        match resolveExpr fuel r value with
        | (.ok (), r1) => Resolver.resolveLocal r1 name
        | other => other
    | .binary l _ rgt =>
        match resolveExpr fuel r l with
        | (.ok (), r1) => resolveExpr fuel r1 rgt
        | other => other
    | .call callee _ args =>
        match resolveExpr fuel r callee with
        | (.ok (), r1) => resolveExprList fuel r1 args
        | other => other
    | .get obj _ => resolveExpr fuel r obj
    | .grouping g => resolveExpr fuel r g
    | .literalE _ => (.ok (), r)
    | .logical l _ rgt =>
        match resolveExpr fuel r l with
        | (.ok (), r1) => resolveExpr fuel r1 rgt
        | other => other
    | .unary _ rgt => resolveExpr fuel r rgt
    | .set obj _ value =>
        match resolveExpr fuel r value with
        | (.ok (), r1) => resolveExpr fuel r1 obj
        | other => other
    | .thisE _ => (.panicked "non-exhaustive match on Expr in resolver", r)

/-- The argument loop of `resolve_expr`'s `Call` arm (stops at the first
error, like the source's `?`). -/
def resolveExprList : Nat → Resolver → List Expr → Outcome Unit × Resolver
  | 0, r, _ => (.diverged, r)
  | _ + 1, r, [] => (.ok (), r)
  | fuel + 1, r, a :: rest =>
      match resolveExpr fuel r a with
      | (.ok (), r1) => resolveExprList fuel r1 rest
      | other => other

/-- `Resolver::resolve_stmt` (`src/interpreter/resolver.rs`). -/
def resolveStmt : Nat → Resolver → Stmt → Outcome Unit × Resolver
  | 0, r, _ => (.diverged, r)
  | fuel + 1, r, s =>
    match s with
    | .varS name init =>
        match r.declare name.lexeme with
        | (.ok (), r1) =>
            match (match init with
                   | some e => resolveExpr fuel r1 e
                   | none => (.ok (), r1)) with
            | (.ok (), r2) => r2.define name.lexeme
            | other => other
        | other => other
    | .functionS decl =>
        match r.declare decl.name.lexeme with
        | (.ok (), r1) =>
            match r1.define decl.name.lexeme with
            | (.ok (), r2) => resolveFunc fuel r2 decl .function
            | other => other
        | other => other
    | .exprS e => resolveExpr fuel r e
    | .ifS cond thenB elseB =>
        match resolveExpr fuel r cond with
        | (.ok (), r1) =>
            match resolveStmt fuel r1 thenB with
            | (.ok (), r2) =>
                match elseB with
                | some eb => resolveStmt fuel r2 eb
                | none => (.ok (), r2)
            | other => other
        | other => other
    | .printS e => resolveExpr fuel r e
    | .returnS _ value =>
        match r.currFn with
        | .none => (.err (.resolver "Cannot return from top-level code."), r)
        | _ =>
            match value with
            | some v => resolveExpr fuel r v
            | none => (.ok (), r)
    | .whileS cond body =>
        match resolveExpr fuel r cond with
        | (.ok (), r1) => resolveStmt fuel r1 body
        | other => other
    | .blockS stmts =>
        let r1 := r.beginScope
        match resolveAll fuel r1 stmts with
        | (.ok (), r2) => r2.endScope
        | other => other
    | .classS name methods =>
        match r.declare name.lexeme with
        | (.ok (), r1) =>
            match r1.define name.lexeme with
            | (.ok (), r2) => resolveMethods fuel r2 methods
            | other => other
        | other => other

/-- The method loop of `resolve_stmt`'s `Class` arm: each method resolves
with `FunctionType::Method`. -/
def resolveMethods : Nat → Resolver → List FunctionDecl → Outcome Unit × Resolver
  | 0, r, _ => (.diverged, r)
  | _ + 1, r, [] => (.ok (), r)
  | fuel + 1, r, m :: rest =>
      match resolveFunc fuel r m .method with
      | (.ok (), r1) => resolveMethods fuel r1 rest
      | other => other

/-- `Resolver::resolve_func`: swap in the function kind, open a scope,
declare and define the parameters, resolve the body, close the scope,
restore the kind.  Errors propagate via `?`, skipping the restores. -/
def resolveFunc : Nat → Resolver → FunctionDecl → FunctionType → Outcome Unit × Resolver
  | 0, r, _, _ => (.diverged, r)
  | fuel + 1, r, func, typ =>
    let enclosing := r.currFn
    let r1 := ({ r with currFn := typ } : Resolver).beginScope
    match resolveParams r1 func.params with
    | (.ok (), r2) =>
        match resolveAll fuel r2 func.body with
        | (.ok (), r3) =>
            match r3.endScope with
            | (.ok (), r4) => (.ok (), { r4 with currFn := enclosing })
            | other => other
        | other => other
    | other => other

/-- `Resolver::resolve_all`: resolve every statement, remembering (but not
stopping at) per-statement errors, and fail at the end when any occurred.
A panic from `Interpreter::resolve` aborts immediately. -/
def resolveAll : Nat → Resolver → List Stmt → Outcome Unit × Resolver
  | 0, r, _ => (.diverged, r)
  | fuel + 1, r, stmts => resolveSeq fuel r stmts false

/-- The accumulating loop of `resolve_all` with its `had_error` flag. -/
def resolveSeq : Nat → Resolver → List Stmt → Bool → Outcome Unit × Resolver
  | 0, r, _, _ => (.diverged, r)
  | _ + 1, r, [], hadError =>
      ((if hadError then
          Outcome.err (.resolver "One or more errors during static analysis")
        else Outcome.ok ()), r)
  | fuel + 1, r, s :: rest, hadError =>
      match resolveStmt fuel r s with
      | (.ok (), r1) => resolveSeq fuel r1 rest hadError
      | (.err _, r1) => resolveSeq fuel r1 rest true
      | (.panicked m, r1) => (.panicked m, r1)
      | (.diverged, r1) => (.diverged, r1)

end

/-- Run only the static-resolution pass of `Lox::run` (`src/main.rs`) on a
fresh interpreter. -/
def resolveProgram (fuel : Nat) (stmts : List Stmt) : Outcome Unit × Resolver :=
  resolveAll fuel (Resolver.new Interpreter.new) stmts

/-- `Lox::run` (`src/main.rs`), after scanning and parsing: resolve the
statements on a fresh interpreter, and when resolution succeeds interpret
them. -/
def runProgram (fuel : Nat) (stmts : List Stmt) : Outcome Unit × Interpreter :=
  match resolveProgram fuel stmts with
  | (.ok (), r1) => interpret fuel r1.interp stmts
  | (.err e, r1) => (.err e, r1.interp)
  | (.panicked m, r1) => (.panicked m, r1.interp)
  | (.diverged, r1) => (.diverged, r1.interp)

/-! Outcome and value classifiers used by the theorems below. -/

/-- The outcome travelled through the `Result` channel back to the caller:
normal completion or an error (runtime errors and the return-signal
included).  `false` for a panic (which aborts) and for divergence. -/
def Outcome.isOkOrErr {α : Type} : Outcome α → Bool
  | .ok _ => true
  | .err _ => true
  | .panicked _ => false
  | .diverged => false

def Object.isCallable : Object → Bool
  | .callable _ => true
  | _ => false

def Object.isInstance : Object → Bool
  | .instanceO _ _ => true
  | _ => false

def Object.isLiteral : Object → Bool
  | .literalO _ => true
  | _ => false

/-! Concrete programs used as inputs by the theorems below. -/

/-- An identifier token as the scanner produces it (`Literal::Null`
payload). -/
def identTok (lexeme : String) (line : Nat) : Token :=
  Token.new .identifier lexeme .null line

/-- `var a = 1; { print a; }` - the block body reads an enclosing name. -/
def c1Prog : List Stmt :=
  [ .varS (identTok "a" 1) (some (.literalE (.number 1))),
    .blockS [.printS (.variable (identTok "a" 2))] ]

/-- `{ var a = 1; a; a; }` - the same local read twice on one line, so the
two `Variable` tokens are structurally equal. -/
def c2Prog : List Stmt :=
  [ .blockS
      [ .varS (identTok "a" 3) (some (.literalE (.number 1))),
        .exprS (.variable (identTok "a" 4)),
        .exprS (.variable (identTok "a" 4)) ] ]

/-- The method declaration `m() {}` used by the C3 theorem. -/
def declM : FunctionDecl := .mk (identTok "m" 1) [] []

/-- `class P {} var a = P(); var b = a; a.x = 1;` - two variables bound to
"the same" instance, then a field write through the first. -/
def c4Prog : List Stmt :=
  [ .classS (identTok "P" 1) [],
    .varS (identTok "a" 2)
      (some (.call (.variable (identTok "P" 2)) (Token.new .leftParen "(" .null 2) [])),
    .varS (identTok "b" 3) (some (.variable (identTok "a" 3))),
    .exprS (.set (.variable (identTok "a" 4)) (identTok "x" 4) (.literalE (.number 1))) ]

/-- `var g = 7; { g; }` - an unresolved (global) name read inside a block. -/
def c5Prog : List Stmt :=
  [ .varS (identTok "g" 1) (some (.literalE (.number 7))),
    .blockS [.exprS (.variable (identTok "g" 2))] ]

/-- `1();` - a call whose callee is not a callable. -/
def c6CallProg : List Stmt :=
  [ .exprS (.call (.literalE (.number 1)) (Token.new .leftParen "(" .null 1) []) ]

/-- `1.foo;` - a property access on a non-instance. -/
def c6GetProg : List Stmt :=
  [ .exprS (.get (.literalE (.number 1)) (identTok "foo" 1)) ]

/-- `1 < "x";` as an expression - a comparison between a number and a
string. -/
def c8Expr : Expr :=
  .binary (.literalE (.number 1)) (Token.new .less "<" .null 1) (.literalE (.stringL "x"))

/-- `!clock;` - logical negation of a callable value. -/
def c9Prog : List Stmt :=
  [ .exprS (.unary (Token.new .bang "!" .null 1) (.variable (identTok "clock" 1))) ]

/-- `class P {}` - setup for the C10 witness. -/
def c10Setup : List Stmt := [ .classS (identTok "P" 1) [] ]

/-- `P()` - a call expression producing an instance; syntactically neither
a `Variable` nor a `This`. -/
def c10Obj : Expr :=
  .call (.variable (identTok "P" 2)) (Token.new .leftParen "(" .null 2) []

/-- The class `C` with single method `m`, its method table pointing at
closure frame 0. -/
def clsC : LoxClassData := { name := "C", methods := [("m", declM, 0)] }

/-- A fieldless instance of `clsC`. -/
def instC : Object := .instanceO clsC []

/-- The interpreter state after running `class P {}`. -/
def stC10 : Interpreter := (runProgram 100 c10Setup).2

/-! The claim theorems. -/

/-- Claim C1 (code bug).  The claim says a `Block` statement executes its
statements in a new frame whose parent is the current frame at entry, so
enclosing names remain reachable.  In the code, the `Stmt::Block` arm of
`Interpreter::execute` passes `Environment::new()` - a frame with `parent
= None` - to `execute_block`, so the program `var a = 1; { print a; }`
fails with an undefined-variable runtime error instead of printing `1`. -/
theorem c1_block_frame_parentless :
    Environment.new.parent = none
  ∧ (runProgram 100 c1Prog).1 = .err (.runtime "a" "Defined variable name" (some 2)) :=
  ⟨rfl, rfl⟩

/-- Claim C2 (code bug).  The claim says textually-identical `Variable`
references at different AST positions carry distinct (nonce-stamped) keys,
so resolution never panics.  `Token` has no nonce - its equality is
`(typ, lexeme, literal, line)` - so resolving `{ var a = 1; a; a; }`,
where both reads sit on the same line, hits the duplicate-key `panic!` in
`Interpreter::resolve`. -/
theorem c2_duplicate_token_key_panics :
    (resolveProgram 100 c2Prog).1 = .panicked "Tried to insert local over existing key" := rfl

/-- Claim C3 (code bug).  The claim says a method found by property access
is returned bound to the instance (a callable whose closure defines
`this`).  `LoxInstance::get` returns the stored method with its original
closure index unchanged - `LoxFunction::bind` (second conjunct: it would
allocate a fresh frame defining `this`) is never called by the source. -/
theorem c3_method_returned_without_this_binding :
    LoxInstance.get clsC [] (identTok "m" 2) = .ok (.callable (.func declM 0))
  ∧ (LoxFunction.bind [Environment.new] declM 0 instC).2 =
      [Environment.new, { values := [("this", instC)], parent := some 0 }] :=
  ⟨rfl, rfl⟩

/-- Claim C4, counterexample.  After
`class P {} var a = P(); var b = a; a.x = 1;` the write is visible through
`a` but reading `b.x` raises the no-such-field runtime error: the field
write on the instance bound to `a` is NOT visible through `b`, refuting
"the mutation is immediately visible through every other reference to the
same instance". -/
theorem c4_counterexample_alias_does_not_see_write :
    (runProgram 100 c4Prog).1 = .ok ()
  ∧ (evaluate 100 (runProgram 100 c4Prog).2
        (.get (.variable (identTok "a" 5)) (identTok "x" 5))).1
      = .ok (.literalO (.number 1))
  ∧ (evaluate 100 (runProgram 100 c4Prog).2
        (.get (.variable (identTok "b" 5)) (identTok "x" 5))).1
      = .err (.runtime "no such method or field" "method or field named x" (some 5)) :=
  ⟨rfl, rfl, rfl⟩

/-- Claim C4 as amended.  A `Set` through a variable-shaped object
expression writes the field into a (cloned) copy of the instance value and
then re-assigns that variable to the updated copy; the write is visible
afterwards only through the re-assigned variable, because instances are
cloned values rather than shared handles. -/
theorem c4_set_reassigns_named_variable
    (fuel : Nat) (st st1 st2 : Interpreter) (t name : Token) (value : Expr)
    (cls : LoxClassData) (fields : List (String × Object)) (v : Object)
    (hobj : evaluate fuel st (.variable t) = (.ok (.instanceO cls fields), st1))
    (hval : evaluate fuel st1 value = (.ok v, st2)) :
    evaluate (fuel + 1) st (.set (.variable t) name value) =
      assignResult (Environment.assign (st2.heap.length + 1) st2.heap st2.environment t
        (.instanceO cls (ainsert fields name.lexeme v))) st2 v := by
  simp only [evaluate, hobj, hval, setTargetToken]

/-- Witness for the C4 theorem at a concrete input: setting `a.y = 2` in
the state produced by `c4Prog`. -/
theorem c4_witness :
    evaluate 101 (runProgram 100 c4Prog).2
        (.set (.variable (identTok "a" 6)) (identTok "y" 6) (.literalE (.number 2))) =
      assignResult
        (Environment.assign ((runProgram 100 c4Prog).2.heap.length + 1)
          (runProgram 100 c4Prog).2.heap (runProgram 100 c4Prog).2.environment
          (identTok "a" 6)
          (.instanceO { name := "P", methods := [] }
            (ainsert [("x", .literalO (.number 1))] "y" (.literalO (.number 2)))))
        (runProgram 100 c4Prog).2 (.literalO (.number 2)) :=
  c4_set_reassigns_named_variable 100 (runProgram 100 c4Prog).2 _ _
    (identTok "a" 6) (identTok "y" 6) (.literalE (.number 2))
    { name := "P", methods := [] } [("x", .literalO (.number 1))]
    (.literalO (.number 2)) (by rfl) (by rfl)

/-- Claim C5, counterexample.  Running `var g = 7; { g; }`: the token `g`
is absent from the resolution map, and the claim says the lookup is then
performed on the globals frame - which does hold `g = 7` (second
conjunct) - yet evaluation fails with an undefined-variable error, because
the fallback lookup actually starts at the current (parentless block)
frame. -/
theorem c5_counterexample_fallback_is_not_globals :
    (runProgram 100 c5Prog).1 = .err (.runtime "g" "Defined variable name" (some 2))
  ∧ alookup (heapGet (runProgram 100 c5Prog).2.heap (runProgram 100 c5Prog).2.globals).values "g"
      = some (.literalO (.number 7)) :=
  ⟨rfl, rfl⟩

/-- Claim C5 as amended.  For a token absent from the resolution map, the
evaluator performs the variable lookup - and the assignment - as a chained
search starting at the *current* frame (`self.environment`), not on the
globals frame. -/
theorem c5_unresolved_uses_current_frame_chain :
    (∀ (st : Interpreter) (name : Token), alookup st.locals name = none →
        st.lookupVariable name =
          Environment.get (st.heap.length + 1) st.heap st.environment name)
  ∧ (∀ (fuel : Nat) (st st1 : Interpreter) (name : Token) (value : Expr) (v : Object),
        evaluate fuel st value = (.ok v, st1) →
        alookup st1.locals name = none →
        evaluate (fuel + 1) st (.assign name value) =
          assignResult (Environment.assign (st1.heap.length + 1) st1.heap st1.environment name v)
            st1 v) := by
  constructor
  · intro st name h
    simp [Interpreter.lookupVariable, h]
  · intro fuel st st1 name value v hval h
    simp only [evaluate, hval, h]

/-- Witness for the C5 theorem at a concrete input. -/
theorem c5_witness :
    Interpreter.new.lookupVariable (identTok "q" 1) =
      Environment.get (Interpreter.new.heap.length + 1) Interpreter.new.heap
        Interpreter.new.environment (identTok "q" 1) :=
  c5_unresolved_uses_current_frame_chain.1 Interpreter.new (identTok "q" 1) rfl

/-- Claim C6, counterexample.  `1();` panics (in `arity()` on a
non-callable `Object`) and `1.foo;` yields an Internal error - not the
Runtime errors the claim promises. -/
theorem c6_counterexample_panic_and_internal :
    (runProgram 100 c6CallProg).1 = .panicked "1 is not a LoxCallable"
  ∧ (runProgram 100 c6GetProg).1 = .err (.internal "Only instances have properties.") :=
  ⟨rfl, rfl⟩

/-- Claim C6 as amended.  Calling a non-callable value panics (the arity
check dispatches through `impl LoxCallable for Object`, whose non-callable
arms are `panic!`); property access on a non-instance value returns an
Internal error ("Only instances have properties."). -/
theorem c6_non_callable_panics_non_instance_internal :
    (∀ (fuel : Nat) (st st1 st2 : Interpreter) (callee : Expr) (paren : Token)
        (args : List Expr) (f : Object) (argv : List Object),
        evaluate fuel st callee = (.ok f, st1) →
        evalArgs fuel st1 args = (.ok argv, st2) →
        f.isCallable = false →
        evaluate (fuel + 1) st (.call callee paren args) =
          (.panicked (f.debugStr ++ " is not a LoxCallable"), st2))
  ∧ (∀ (fuel : Nat) (st st1 : Interpreter) (obj : Expr) (name : Token) (v : Object),
        evaluate fuel st obj = (.ok v, st1) →
        v.isInstance = false →
        evaluate (fuel + 1) st (.get obj name) =
          (.err (.internal "Only instances have properties."), st1)) := by
  constructor
  · intro fuel st st1 st2 callee paren args f argv hc ha hf
    cases f <;> simp_all [evaluate, Object.arity, Object.isCallable]
  · intro fuel st st1 obj name v ho hv
    cases v <;> simp_all [evaluate, Object.isInstance]

/-- Witness for the C6 theorem at concrete inputs. -/
theorem c6_witness :
    evaluate 2 Interpreter.new
        (.call (.literalE (.number 1)) (Token.new .leftParen "(" .null 1) []) =
      (.panicked "1 is not a LoxCallable", Interpreter.new)
  ∧ evaluate 2 Interpreter.new (.get (.literalE (.number 1)) (identTok "foo" 1)) =
      (.err (.internal "Only instances have properties."), Interpreter.new) :=
  ⟨c6_non_callable_panics_non_instance_internal.1 1 Interpreter.new Interpreter.new
      Interpreter.new (.literalE (.number 1)) (Token.new .leftParen "(" .null 1) []
      (.literalO (.number 1)) [] rfl rfl rfl,
   c6_non_callable_panics_non_instance_internal.2 1 Interpreter.new Interpreter.new
      (.literalE (.number 1)) (identTok "foo" 1) (.literalO (.number 1)) rfl rfl⟩

/-- Claim C7.  For every path entering a block or a function call that
exits through the result channel (normal completion or any error, the
return-signal included), the evaluator's current-frame pointer at exit
equals its value at entry.  (A Rust `panic!` aborts and is excluded, as is
divergence.) -/
theorem c7_frame_pointer_restored :
    (∀ (fuel : Nat) (st : Interpreter) (stmts : List Stmt) (env : Environment),
        (executeBlock fuel st stmts env).1.isOkOrErr = true →
        (executeBlock fuel st stmts env).2.environment = st.environment)
  ∧ (∀ (fuel : Nat) (st : Interpreter) (decl : FunctionDecl) (closure : Nat)
        (args : List Object),
        (loxFunctionCall fuel st decl closure args).1.isOkOrErr = true →
        (loxFunctionCall fuel st decl closure args).2.environment = st.environment) := by
  have hb : ∀ (fuel : Nat) (st : Interpreter) (stmts : List Stmt) (env : Environment),
      (executeBlock fuel st stmts env).1.isOkOrErr = true →
      (executeBlock fuel st stmts env).2.environment = st.environment := by
    intro fuel st stmts env h
    cases fuel with
    | zero => rfl
    | succ f =>
      simp only [executeBlock] at h ⊢
      rcases hx : executeAll f { st with heap := st.heap ++ [env], environment := st.heap.length } stmts with ⟨r, st2⟩
      cases r <;> simp_all [Outcome.isOkOrErr]
  refine ⟨hb, ?_⟩
  intro fuel st decl closure args h
  cases fuel with
  | zero => rfl
  | succ f =>
    simp only [loxFunctionCall] at h ⊢
    cases hd : defineParams decl.params args (Environment.withParent closure) with
    | ok env' =>
      simp only [hd] at h ⊢
      rcases hx : executeBlock f st decl.body env' with ⟨r, st2⟩
      have henv := hb f st decl.body env'
      rw [hx] at henv
      cases r with
      | ok u => simpa using henv (by simp [Outcome.isOkOrErr])
      | err e =>
        cases e <;> simp_all [Outcome.isOkOrErr]
      | panicked m => simp_all [Outcome.isOkOrErr]
      | diverged => simp_all [Outcome.isOkOrErr]
    | err e => simp only [hd] at h ⊢
    | panicked m => simp only [hd] at h ⊢
    | diverged => simp only [hd] at h ⊢

/-- Witness for the C7 theorem at concrete inputs: an empty block and a
call of `m() {}`. -/
theorem c7_witness :
    (executeBlock 2 Interpreter.new [] Environment.new).2.environment = Interpreter.new.environment
  ∧ (loxFunctionCall 3 Interpreter.new declM 0 []).2.environment = Interpreter.new.environment :=
  ⟨c7_frame_pointer_restored.1 2 Interpreter.new [] Environment.new (by rfl),
   c7_frame_pointer_restored.2 3 Interpreter.new declM 0 [] (by rfl)⟩

/-- Claim C8, counterexample.  Evaluating `1 < "x"` succeeds with
`Boolean(false)` - no runtime error is raised for a mixed-type
comparison, refuting the claim. -/
theorem c8_counterexample_mixed_comparison_returns_false :
    evaluate 100 Interpreter.new c8Expr = (.ok (.literalO (.boolean false)), Interpreter.new) :=
  rfl

/-- Claim C8 as amended.  Every comparison (`<`, `<=`, `>`, `>=`) succeeds
with a Boolean: the numeric comparison when both operands are Number
literals, and `false` for every other operand pairing (Rust's
`PartialOrd`-derived operators return `false` when `partial_cmp` is
`None`). -/
theorem c8_comparison_semantics (t : Token) (l r : Object)
    (h : t.typ = TokenType.less ∨ t.typ = TokenType.lessEqual ∨
         t.typ = TokenType.greater ∨ t.typ = TokenType.greaterEqual) :
    (Object.partialCmp l r = none → binaryOp t l r = .ok (.literalO (.boolean false)))
  ∧ (∀ a c : Rat, l = .literalO (.number a) → r = .literalO (.number c) →
      binaryOp t l r = .ok (.literalO (.boolean
        (match t.typ with
         | TokenType.less => decide (a < c)
         | TokenType.lessEqual => decide (a ≤ c)
         | TokenType.greater => decide (c < a)
         | _ => decide (c ≤ a))))) := by
  constructor
  · intro hn
    rcases h with h | h | h | h <;>
      simp [binaryOp, h, Object.ltB, Object.leB, Object.gtB, Object.geB, hn]
  · intro a c hl hr
    subst hl; subst hr
    rcases lt_trichotomy a c with hx | hx | hx
    · rcases h with h | h | h | h <;>
        simp [binaryOp, h, Object.ltB, Object.leB, Object.gtB, Object.geB,
              Object.partialCmp, Literal.partialCmp, hx, ne_of_lt hx, le_of_lt hx,
              lt_asymm hx, not_le.mpr hx]
    · subst hx
      rcases h with h | h | h | h <;>
        simp [binaryOp, h, Object.ltB, Object.leB, Object.gtB, Object.geB,
              Object.partialCmp, Literal.partialCmp, lt_irrefl, le_refl]
    · rcases h with h | h | h | h <;>
        simp [binaryOp, h, Object.ltB, Object.leB, Object.gtB, Object.geB,
              Object.partialCmp, Literal.partialCmp, hx, ne_of_gt hx, le_of_lt hx,
              lt_asymm hx, not_le.mpr hx]

/-- Witness for the C8 theorem at concrete inputs: `1 < "x"` is `false`,
`1 < 2` is `true`. -/
theorem c8_witness :
    binaryOp (Token.new .less "<" .null 1) (.literalO (.number 1)) (.literalO (.stringL "x")) =
      .ok (.literalO (.boolean false))
  ∧ binaryOp (Token.new .less "<" .null 1) (.literalO (.number 1)) (.literalO (.number 2)) =
      .ok (.literalO (.boolean true)) :=
  ⟨(c8_comparison_semantics (Token.new .less "<" .null 1) _ _ (Or.inl rfl)).1 rfl,
   (c8_comparison_semantics (Token.new .less "<" .null 1) _ _ (Or.inl rfl)).2 1 2 rfl rfl⟩

/-- Claim C9, counterexample.  Evaluating `!clock` - negating a callable
value - fails with an Internal error instead of returning a Boolean, so
`!v` is not total over callables and instances. -/
theorem c9_counterexample_bang_on_callable :
    (runProgram 100 c9Prog).1 =
      .err (.internal "Expected a literal, found <native function>") := rfl

/-- Claim C9 as amended.  `!v` succeeds with the truthiness negation
whenever the operand evaluates to a literal; when it evaluates to a
callable or an instance, `evaluate_literal` fails with an Internal error
before the operator is applied. -/
theorem c9_bang_semantics (op : Token) (hop : op.typ = TokenType.bang) :
    (∀ (fuel : Nat) (st st1 : Interpreter) (e : Expr) (l : Literal),
        evaluateLiteral fuel st e = (.ok l, st1) →
        evaluate (fuel + 1) st (.unary op e) =
          (.ok (.literalO (.boolean (!l.isTruthy))), st1))
  ∧ (∀ (fuel : Nat) (st st1 : Interpreter) (e : Expr) (v : Object),
        evaluate fuel st e = (.ok v, st1) →
        v.isLiteral = false →
        evaluate (fuel + 2) st (.unary op e) =
          (.err (.internal ("Expected a literal, found " ++ v.debugStr)), st1)) := by
  constructor
  · intro fuel st st1 e l hlit
    simp [evaluate, hlit, hop]
  · intro fuel st st1 e v hv hnl
    cases v <;> simp_all [evaluate, evaluateLiteral, Object.isLiteral]

/-- Witness for the C9 theorem at concrete inputs: `!nil` is `true`,
`!clock` is an Internal error. -/
theorem c9_witness :
    evaluate 3 Interpreter.new (.unary (Token.new .bang "!" .null 1) (.literalE .null)) =
      (.ok (.literalO (.boolean true)), Interpreter.new)
  ∧ evaluate 3 Interpreter.new
        (.unary (Token.new .bang "!" .null 1) (.variable (identTok "clock" 1))) =
      (.err (.internal "Expected a literal, found <native function>"), Interpreter.new) :=
  ⟨c9_bang_semantics (Token.new .bang "!" .null 1) rfl |>.1 2 Interpreter.new Interpreter.new
      (.literalE .null) .null rfl,
   c9_bang_semantics (Token.new .bang "!" .null 1) rfl |>.2 1 Interpreter.new Interpreter.new
      (.variable (identTok "clock" 1)) (.callable .clock) rfl rfl⟩

/-- Claim C10.  For every `Set` expression whose object sub-expression is
syntactically neither a `Variable` nor a `This`, evaluation returns an
error even when the object value is an instance and the value evaluates
normally: after writing the field, `eval_set` tries to re-assign a
variable named by the object expression and fails on any other shape. -/
theorem c10_set_on_non_variable_object_errors
    (fuel : Nat) (st st1 st2 : Interpreter) (obj : Expr) (name : Token) (value : Expr)
    (cls : LoxClassData) (fields : List (String × Object)) (v : Object)
    (hobj : evaluate fuel st obj = (.ok (.instanceO cls fields), st1))
    (hval : evaluate fuel st1 value = (.ok v, st2))
    (hshape : setTargetToken obj = none) :
    evaluate (fuel + 1) st (.set obj name value) = (.err (.resolver "Wrong kind of expr"), st2) := by
  simp only [evaluate, hobj, hval, hshape]

/-- Witness for the C10 theorem at a concrete input: `P().x = 1` after
`class P {}`. -/
theorem c10_witness :
    evaluate 11 stC10 (.set c10Obj (identTok "x" 2) (.literalE (.number 1))) =
      (.err (.resolver "Wrong kind of expr"),
        (evaluate 10 (evaluate 10 stC10 c10Obj).2 (.literalE (.number 1))).2) :=
  c10_set_on_non_variable_object_errors 10 stC10 _ _ c10Obj (identTok "x" 2)
    (.literalE (.number 1)) { name := "P", methods := [] } [] (.literalO (.number 1))
    (by rfl) (by rfl) (by rfl)

end Lox
